import Mathlib

/-!
Shallow embedding of the keyboard-interpretation core of the `wayland-kbd`
crate (`src/mapped_keyboard.rs`).

The crate drives libxkbcommon through dynamically loaded function pointers.
Here the engine is a record of oracle functions (`XkbEngine`) over abstract
state types: `σ` is the content behind an `xkb_state` pointer, `γ` the content
behind an `xkb_compose_state` pointer, `κ` an `xkb_keymap` handle. Null
pointers in `KbState` become `Option.none`. Machine `i32` results of the
engine become `Int`; byte buffers become `List Nat`. Every operation that
talks to the engine additionally returns the list of engine calls it made
(`XkbCall`), so that "no query performed" and the buffer length handed to the
fill call are observable.
-/

set_option autoImplicit false

namespace WaylandKbd

/-- Result of `xkb_compose_state_feed` (ffi enum `xkb_compose_feed_result`). -/
inductive ComposeFeedResult where
  | accepted
  | ignored
deriving DecidableEq, Repr

/-- Result of `xkb_compose_state_get_status` (ffi enum `xkb_compose_status`). -/
inductive ComposeStatus where
  | nothing
  | composing
  | composed
  | cancelled
deriving DecidableEq, Repr

/-- `wl_keyboard::KeyState` of the wayland protocol. -/
inductive KeyState where
  | pressed
  | released
deriving DecidableEq, Repr

/-- `wl_keyboard::KeymapFormat` of the wayland protocol. -/
inductive KeymapFormat where
  | xkbV1
  | noKeymap
deriving DecidableEq, Repr

/-- Modelled from the spec: the crate's `ffi` module (not present under `src/`)
re-exports xkbcommon's modifier name constants; the spec only requires six
distinct named modifiers (ctrl, alt, shift, caps-lock, logo, num-lock), each
queried by name. Values follow xkbcommon's names header. -/
def XKB_MOD_NAME_CTRL : String := "Control"

/-- Modelled from the spec: named modifier constant, see `XKB_MOD_NAME_CTRL`. -/
def XKB_MOD_NAME_ALT : String := "Mod1"

/-- Modelled from the spec: named modifier constant, see `XKB_MOD_NAME_CTRL`. -/
def XKB_MOD_NAME_SHIFT : String := "Shift"

/-- Modelled from the spec: named modifier constant, see `XKB_MOD_NAME_CTRL`. -/
def XKB_MOD_NAME_CAPS : String := "Lock"

/-- Modelled from the spec: named modifier constant, see `XKB_MOD_NAME_CTRL`. -/
def XKB_MOD_NAME_LOGO : String := "Mod4"

/-- Modelled from the spec: named modifier constant, see `XKB_MOD_NAME_CTRL`. -/
def XKB_MOD_NAME_NUM : String := "Mod2"

/-- Modelled from the spec: the `XKB_STATE_MODS_EFFECTIVE` bit of the ffi
bitflags `xkb_state_component` ("the effective-modifiers bit" of the
changed-components bitset), value `1 <<< 3` as in xkbcommon. -/
def XKB_STATE_MODS_EFFECTIVE : Nat := 8

/-- The RMLVO names handed to `xkb_keymap_new_from_names` (ffi struct
`xkb_rule_names`); a null pointer field is `none`, a C string is its bytes. -/
structure XkbRuleNames where
  rules : Option (List Nat)
  model : Option (List Nat)
  layout : Option (List Nat)
  variant : Option (List Nat)
  options : Option (List Nat)
deriving DecidableEq, Repr

/-- One call into the engine, as observed by the embedding's traces. -/
inductive XkbCall where
  | keyGetOneSym (keycode : Nat)
  | utf8SizeQuery (keycode : Nat)
  | utf8FillQuery (keycode : Nat) (buflen : Nat)
  | updateMask (depressed latched locked group : Nat)
  | modNameQuery (name : String)
  | composeFeed (keysym : Nat)
  | composeStatusQuery
  | composeUtf8SizeQuery
  | composeUtf8FillQuery (buflen : Nat)
deriving DecidableEq, Repr

/-- The engine capability (libxkbcommon entry points used by
`mapped_keyboard.rs`), as pure oracles. `xkb_state_update_mask` and
`xkb_compose_state_feed` mutate the pointee, so they return the new content.
The two-phase UTF-8 query is two oracles: the size call (null buffer, returns
the engine's `int`) and the fill call (given the buffer length passed by the
caller, returns the bytes the engine wrote into the buffer). -/
structure XkbEngine (σ γ κ : Type) where
  xkb_state_key_get_one_sym : σ → Nat → Nat
  xkb_state_key_get_utf8_size : σ → Nat → Int
  xkb_state_key_get_utf8_fill : σ → Nat → Nat → List Nat
  xkb_state_update_mask : σ → Nat → Nat → Nat → Nat → Nat → Nat → σ × Nat
  xkb_state_mod_name_is_active : σ → String → Int
  xkb_compose_state_feed : γ → Nat → γ × ComposeFeedResult
  xkb_compose_state_get_status : γ → ComposeStatus
  xkb_compose_state_get_utf8_size : γ → Int
  xkb_compose_state_get_utf8_fill : γ → Nat → List Nat
  xkb_keymap_new_from_string : List Nat → Option κ
  xkb_keymap_new_from_names : XkbRuleNames → Option κ
  xkb_state_new : κ → σ
  xkbcommon_available : Bool
  xkb_context_new_ok : Bool
  xkb_compose_table_new_from_locale : List Nat → Bool
  xkb_compose_state_new : List Nat → Option γ

/-- `ModifiersState` of `mapped_keyboard.rs`: six booleans, one per modifier. -/
structure ModifiersState where
  ctrl : Bool
  alt : Bool
  shift : Bool
  caps_lock : Bool
  logo : Bool
  num_lock : Bool
deriving DecidableEq, Repr

/-- `ModifiersState::new`: every modifier inactive. -/
def ModifiersState.new : ModifiersState :=
  { ctrl := false, alt := false, shift := false
  , caps_lock := false, logo := false, num_lock := false }

/-- `ModifiersState::update_with`: overwrite all six booleans, each by a
separate `xkb_state_mod_name_is_active(state, NAME, XKB_STATE_MODS_EFFECTIVE)
> 0` query. The result does not depend on the previous snapshot. -/
def ModifiersState.update_with {σ γ κ : Type} (E : XkbEngine σ γ κ) (state : σ) :
    ModifiersState :=
  { ctrl := decide (0 < E.xkb_state_mod_name_is_active state XKB_MOD_NAME_CTRL)
  , alt := decide (0 < E.xkb_state_mod_name_is_active state XKB_MOD_NAME_ALT)
  , shift := decide (0 < E.xkb_state_mod_name_is_active state XKB_MOD_NAME_SHIFT)
  , caps_lock := decide (0 < E.xkb_state_mod_name_is_active state XKB_MOD_NAME_CAPS)
  , logo := decide (0 < E.xkb_state_mod_name_is_active state XKB_MOD_NAME_LOGO)
  , num_lock := decide (0 < E.xkb_state_mod_name_is_active state XKB_MOD_NAME_NUM) }

/-- The trace `ModifiersState::update_with` leaves: one named query per
modifier, in source order. -/
def modNameQueries : List XkbCall :=
  [ XkbCall.modNameQuery XKB_MOD_NAME_CTRL
  , XkbCall.modNameQuery XKB_MOD_NAME_ALT
  , XkbCall.modNameQuery XKB_MOD_NAME_SHIFT
  , XkbCall.modNameQuery XKB_MOD_NAME_CAPS
  , XkbCall.modNameQuery XKB_MOD_NAME_LOGO
  , XkbCall.modNameQuery XKB_MOD_NAME_NUM ]

/-- `KbState` of `mapped_keyboard.rs`. Null pointers are `none`; the
`xkb_context` pointer is owned but has no observable content, so it carries no
field here. `xkb_compose_table` only records non-nullness. -/
structure KbState (σ γ κ : Type) where
  xkb_keymap : Option κ
  xkb_state : Option σ
  xkb_compose_table : Bool
  xkb_compose_state : Option γ
  mods_state : ModifiersState
  locked : Bool
deriving DecidableEq, Repr

/-- `KbState::ready`: `!self.xkb_state.is_null()`. -/
def KbState.ready {σ γ κ : Type} (st : KbState σ γ κ) : Bool :=
  st.xkb_state.isSome

/-- `KbState::get_one_sym_raw`: 0 when not ready, otherwise
`xkb_state_key_get_one_sym(state, keycode + 8)`. -/
def KbState.get_one_sym_raw {σ γ κ : Type} (E : XkbEngine σ γ κ)
    (st : KbState σ γ κ) (keycode : Nat) : Nat × List XkbCall :=
  match st.xkb_state with
  | none => (0, [])
  | some s =>
      (E.xkb_state_key_get_one_sym s (keycode + 8), [XkbCall.keyGetOneSym (keycode + 8)])

/-- `KbState::get_utf8_raw`: none when not ready; otherwise size query with a
null buffer plus one (room for the terminator), none when that is ≤ 1, else a
fill query with a buffer of exactly `size` bytes, popping the final `\0`. -/
def KbState.get_utf8_raw {σ γ κ : Type} (E : XkbEngine σ γ κ)
    (st : KbState σ γ κ) (keycode : Nat) : Option (List Nat) × List XkbCall :=
  match st.xkb_state with
  | none => (none, [])
  | some s =>
      let size : Int := E.xkb_state_key_get_utf8_size s (keycode + 8) + 1
      if size ≤ 1 then
        (none, [XkbCall.utf8SizeQuery (keycode + 8)])
      else
        let buffer := E.xkb_state_key_get_utf8_fill s (keycode + 8) size.toNat
        (some buffer.dropLast,
         [XkbCall.utf8SizeQuery (keycode + 8), XkbCall.utf8FillQuery (keycode + 8) size.toNat])

/-- `KbState::compose_feed`: none when not ready or the compose state is null,
otherwise feed the keysym (mutating the compose state). -/
def KbState.compose_feed {σ γ κ : Type} (E : XkbEngine σ γ κ)
    (st : KbState σ γ κ) (keysym : Nat) :
    KbState σ γ κ × Option ComposeFeedResult × List XkbCall :=
  match st.xkb_state, st.xkb_compose_state with
  | some _, some c =>
      let r := E.xkb_compose_state_feed c keysym
      ({ st with xkb_compose_state := some r.1 }, some r.2, [XkbCall.composeFeed keysym])
  | _, _ => (st, none, [])

/-- `KbState::compose_status`: none when not ready or the compose state is
null, otherwise the engine's status. -/
def KbState.compose_status {σ γ κ : Type} (E : XkbEngine σ γ κ)
    (st : KbState σ γ κ) : Option ComposeStatus × List XkbCall :=
  match st.xkb_state, st.xkb_compose_state with
  | some _, some c => (some (E.xkb_compose_state_get_status c), [XkbCall.composeStatusQuery])
  | _, _ => (none, [])

/-- `KbState::compose_get_utf8`: none when not ready or the compose state is
null, otherwise the same two-phase size/fill query as `get_utf8_raw`. -/
def KbState.compose_get_utf8 {σ γ κ : Type} (E : XkbEngine σ γ κ)
    (st : KbState σ γ κ) : Option (List Nat) × List XkbCall :=
  match st.xkb_state, st.xkb_compose_state with
  | some _, some c =>
      let size : Int := E.xkb_compose_state_get_utf8_size c + 1
      if size ≤ 1 then
        (none, [XkbCall.composeUtf8SizeQuery])
      else
        let buffer := E.xkb_compose_state_get_utf8_fill c size.toNat
        (some buffer.dropLast,
         [XkbCall.composeUtf8SizeQuery, XkbCall.composeUtf8FillQuery size.toNat])
  | _, _ => (none, [])

/-- `KbState::update_modifiers`: no-op when not ready; otherwise fold the raw
masks through `xkb_state_update_mask(state, depressed, latched, locked, 0, 0,
group)` and, only when the returned bitset contains
`XKB_STATE_MODS_EFFECTIVE`, recompute the snapshot with `update_with`. -/
def KbState.update_modifiers {σ γ κ : Type} (E : XkbEngine σ γ κ)
    (st : KbState σ γ κ) (mods_depressed mods_latched mods_locked group : Nat) :
    KbState σ γ κ × List XkbCall :=
  match st.xkb_state with
  | none => (st, [])
  | some s =>
      let r := E.xkb_state_update_mask s mods_depressed mods_latched mods_locked 0 0 group
      if r.2 &&& XKB_STATE_MODS_EFFECTIVE = XKB_STATE_MODS_EFFECTIVE then
        ({ st with xkb_state := some r.1, mods_state := ModifiersState.update_with E r.1 },
         XkbCall.updateMask mods_depressed mods_latched mods_locked group :: modNameQueries)
      else
        ({ st with xkb_state := some r.1 },
         [XkbCall.updateMask mods_depressed mods_latched mods_locked group])

/-- `KbState::post_init`: install the keymap, derive a fresh interpretation
state from it, and recompute the modifier snapshot against that state. -/
def KbState.post_init {σ γ κ : Type} (E : XkbEngine σ γ κ)
    (st : KbState σ γ κ) (xkb_keymap : κ) : KbState σ γ κ :=
  let xkb_state := E.xkb_state_new xkb_keymap
  { st with xkb_keymap := some xkb_keymap
          , xkb_state := some xkb_state
          , mods_state := ModifiersState.update_with E xkb_state }

/-- `KbState::de_init`: release the interpretation state and the keymap. -/
def KbState.de_init {σ γ κ : Type} (st : KbState σ γ κ) : KbState σ γ κ :=
  { st with xkb_state := none, xkb_keymap := none }

/-- The message of the `panic!` in `KbState::init_with_fd`. -/
def invalidKeymapPanicMsg : String := "Received invalid keymap from compositor."

/-- `KbState::init_with_fd`: compile the mmapped bytes as a text-v1 keymap;
`panic!` (modelled as `Except.error` with the panic message, i.e. process
termination) when compilation returns null, otherwise `post_init`. -/
def KbState.init_with_fd {σ γ κ : Type} (E : XkbEngine σ γ κ)
    (st : KbState σ γ κ) (bytes : List Nat) : Except String (KbState σ γ κ) :=
  match E.xkb_keymap_new_from_string bytes with
  | none => Except.error invalidKeymapPanicMsg
  | some km => Except.ok (st.post_init E km)

/-- `MappedKeyboardError` of `mapped_keyboard.rs` (the crate's only error
enum: libxkbcommon unavailable, or an RMLVO that would not load). -/
inductive MappedKeyboardError where
  | XKBNotFound
  | BadNames
deriving DecidableEq, Repr

/-- `KbState::init_with_rmlvo`: compile a keymap from RMLVO names; `BadNames`
when compilation returns null, otherwise `post_init`. -/
def KbState.init_with_rmlvo {σ γ κ : Type} (E : XkbEngine σ γ κ)
    (st : KbState σ γ κ) (names : XkbRuleNames) :
    Except MappedKeyboardError (KbState σ γ κ) :=
  match E.xkb_keymap_new_from_names names with
  | none => Except.error MappedKeyboardError.BadNames
  | some km => Except.ok (st.post_init E km)

/-- `KbState::init_compose`: build a compose table from the locale; on null,
continue without compose. Then build a compose state; on null, unref the
table and continue without compose. Only on success are both installed. -/
def KbState.init_compose {σ γ κ : Type} (E : XkbEngine σ γ κ)
    (st : KbState σ γ κ) (locale : List Nat) : KbState σ γ κ :=
  if E.xkb_compose_table_new_from_locale locale = false then st
  else
    match E.xkb_compose_state_new locale with
    | none => st
    | some c => { st with xkb_compose_table := true, xkb_compose_state := some c }

/-- `KbState::new`: `XKBNotFound` when the library is unavailable or
`xkb_context_new` returns null; otherwise a state with all handles null, the
fresh modifier snapshot, `locked = false`, after attempting `init_compose`
(`locale` is the environment-derived locale bytes). -/
def KbState.new {σ γ κ : Type} (E : XkbEngine σ γ κ) (locale : List Nat) :
    Except MappedKeyboardError (KbState σ γ κ) :=
  if E.xkbcommon_available = false then Except.error MappedKeyboardError.XKBNotFound
  else if E.xkb_context_new_ok = false then Except.error MappedKeyboardError.XKBNotFound
  else
    Except.ok (KbState.init_compose E
      { xkb_keymap := none, xkb_state := none, xkb_compose_table := false
      , xkb_compose_state := none, mods_state := ModifiersState.new, locked := false } locale)

/-- The `keymap` closure of `wl_keyboard_implementation`: ignore the event
entirely when locked; otherwise `de_init` first when ready, then on `XkbV1`
run `init_with_fd` (which may panic), and on `NoKeymap` do nothing. -/
def keymap_event {σ γ κ : Type} (E : XkbEngine σ γ κ) (st : KbState σ γ κ)
    (format : KeymapFormat) (bytes : List Nat) : Except String (KbState σ γ κ) :=
  if st.locked then Except.ok st
  else
    let st1 := if st.ready then st.de_init else st
    match format with
    | KeymapFormat.xkbV1 => st1.init_with_fd E bytes
    | KeymapFormat.noKeymap => Except.ok st1

/-- The arguments the `key` closure passes to the registered handler
(`implem.key`), in source order. -/
structure KeyCallbackArgs where
  serial : Nat
  time : Nat
  mods : ModifiersState
  rawkey : Nat
  keysym : Nat
  key_state : KeyState
  utf8 : Option (List Nat)
deriving DecidableEq, Repr

/-- The `key` closure of `wl_keyboard_implementation`: resolve the symbol;
on press feed it to compose and set `ignore_text` unless the feed result is
`Some(ACCEPTED)`; on release `ignore_text` is true. When `ignore_text`, the
text is `None`; otherwise dispatch on `compose_status`: `COMPOSED` emits the
composed text, `NOTHING` falls back to `get_utf8_raw`, any other status emits
`None`; a `None` status also falls back to `get_utf8_raw`. Returns the state
after the event, the handler arguments, and the engine-call trace. -/
def key_event {σ γ κ : Type} (E : XkbEngine σ γ κ) (st : KbState σ γ κ)
    (serial time key : Nat) (key_state : KeyState) :
    KbState σ γ κ × KeyCallbackArgs × List XkbCall :=
  let symR := st.get_one_sym_raw E key
  let sym := symR.1
  let feedR : KbState σ γ κ × Bool × List XkbCall :=
    if key_state = KeyState.pressed then
      let r := st.compose_feed E sym
      (r.1, decide (r.2.1 ≠ some ComposeFeedResult.accepted), r.2.2)
    else (st, true, [])
  let st1 := feedR.1
  let ignore_text := feedR.2.1
  let utf8R : Option (List Nat) × List XkbCall :=
    if ignore_text then (none, [])
    else
      let statusR := st1.compose_status E
      match statusR.1 with
      | some ComposeStatus.composed =>
          let r := st1.compose_get_utf8 E
          (r.1, statusR.2 ++ r.2)
      | some ComposeStatus.nothing =>
          let r := st1.get_utf8_raw E key
          (r.1, statusR.2 ++ r.2)
      | some _ => (none, statusR.2)
      | none =>
          let r := st1.get_utf8_raw E key
          (r.1, statusR.2 ++ r.2)
  (st1,
   { serial := serial, time := time, mods := st1.mods_state, rawkey := key
   , keysym := sym, key_state := key_state, utf8 := utf8R.1 },
   symR.2 ++ feedR.2.2 ++ utf8R.2)

/-- The `modifiers` closure of `wl_keyboard_implementation`: forward the four
masks to `update_modifiers`. -/
def modifiers_event {σ γ κ : Type} (E : XkbEngine σ γ κ) (st : KbState σ γ κ)
    (mods_depressed mods_latched mods_locked group : Nat) :
    KbState σ γ κ × List XkbCall :=
  st.update_modifiers E mods_depressed mods_latched mods_locked group

/-- `RMLVO` of `mapped_keyboard.rs`: five optional strings, as byte lists. -/
structure RMLVO where
  rules : Option (List Nat)
  model : Option (List Nat)
  layout : Option (List Nat)
  variant : Option (List Nat)
  options : Option (List Nat)
deriving DecidableEq, Repr

/-- The `to_cstring` helper of `register_kbd_from_rmlvo`: `CString::new`
fails exactly when the string holds a NUL byte, and the failure is mapped to
`MappedKeyboardError::BadNames`. -/
def to_cstring (s : Option (List Nat)) :
    Except MappedKeyboardError (Option (List Nat)) :=
  match s with
  | none => Except.ok none
  | some bytes =>
      if 0 ∈ bytes then Except.error MappedKeyboardError.BadNames
      else Except.ok (some bytes)

/-- `register_kbd_from_rmlvo`: build a fresh `KbState`, convert the five RMLVO
fields with `to_cstring` (each `?` propagates the error), compile with
`init_with_rmlvo`, then set `locked` before registering. The returned state is
the one registered with the event queue. -/
def register_kbd_from_rmlvo {σ γ κ : Type} (E : XkbEngine σ γ κ)
    (locale : List Nat) (rmlvo : RMLVO) :
    Except MappedKeyboardError (KbState σ γ κ) :=
  match KbState.new E locale with
  | Except.error e => Except.error e
  | Except.ok mapped_kbd =>
    match to_cstring rmlvo.rules with
    | Except.error e => Except.error e
    | Except.ok rules =>
      match to_cstring rmlvo.model with
      | Except.error e => Except.error e
      | Except.ok model =>
        match to_cstring rmlvo.layout with
        | Except.error e => Except.error e
        | Except.ok layout =>
          match to_cstring rmlvo.variant with
          | Except.error e => Except.error e
          | Except.ok variant =>
            match to_cstring rmlvo.options with
            | Except.error e => Except.error e
            | Except.ok options =>
              match mapped_kbd.init_with_rmlvo E
                  { rules := rules, model := model, layout := layout
                  , variant := variant, options := options } with
              | Except.error e => Except.error e
              | Except.ok st => Except.ok { st with locked := true }

/-! Verification helpers: call-trace predicates and outcome observers. -/

/-- Whether an engine call is a compose feed. -/
def isComposeFeedCall : XkbCall → Bool
  | XkbCall.composeFeed _ => true
  | _ => false

/-- A trace holds no compose-feed call. -/
def noComposeFeed (t : List XkbCall) : Bool :=
  t.all fun c => !isComposeFeedCall c

/-- Whether the outcome of a fallible operation is the modelled `panic!`. -/
def isPanicOutcome {α : Type} : Except String α → Bool
  | Except.error _ => true
  | Except.ok _ => false

/-- A field of an `RMLVO` holds an embedded NUL byte. -/
def fieldHasNul : Option (List Nat) → Bool
  | none => false
  | some bytes => decide (0 ∈ bytes)

/-- Some field of an `RMLVO` holds an embedded NUL byte. -/
def rmlvoHasNul (r : RMLVO) : Bool :=
  fieldHasNul r.rules || fieldHasNul r.model || fieldHasNul r.layout ||
    fieldHasNul r.variant || fieldHasNul r.options

/-- Modelled from the spec: §7 of the spec names four distinct error
conditions for the reimplementation (`InitError::EngineNotFound`,
`KeymapError::Malformed`, `KeymapError::BadNames`,
`ConfigError::InvalidParameter`); the code's own enum is
`MappedKeyboardError`. -/
inductive SpecErrorCondition where
  | engineNotFound
  | keymapMalformed
  | keymapBadNames
  | configInvalidParameter
deriving DecidableEq, Repr

/-- Modelled from the spec: the §7 condition each constructor of the code's
`MappedKeyboardError` corresponds to (engine unavailable ↦ EngineNotFound,
an RMLVO that would not load ↦ KeymapError::BadNames). -/
def specConditionOf : MappedKeyboardError → SpecErrorCondition
  | MappedKeyboardError.XKBNotFound => SpecErrorCondition.engineNotFound
  | MappedKeyboardError.BadNames => SpecErrorCondition.keymapBadNames

/-- Fold a list of modifier notifications through `update_modifiers`,
keeping only the state (the adapter's `modifiers` closure repeated). -/
def applyUpdates {σ γ κ : Type} (E : XkbEngine σ γ κ) (st : KbState σ γ κ)
    (updates : List (Nat × Nat × Nat × Nat)) : KbState σ γ κ :=
  updates.foldl (fun acc u => (acc.update_modifiers E u.1 u.2.1 u.2.2.1 u.2.2.2).1) st

/-! Concrete fixtures used by witnesses and counterexamples. -/

/-- A concrete mock engine over `σ = γ = κ = Nat`. -/
def baseEngine : XkbEngine Nat Nat Nat :=
  { xkb_state_key_get_one_sym := fun s keycode => s + keycode
  , xkb_state_key_get_utf8_size := fun _ _ => 3
  , xkb_state_key_get_utf8_fill := fun _ _ buflen =>
      ((List.range (buflen - 1)).map fun i => 97 + i) ++ [0]
  , xkb_state_update_mask := fun s d l lk _ _ g => (s + d + l + lk + g, XKB_STATE_MODS_EFFECTIVE)
  , xkb_state_mod_name_is_active := fun _ name => if name = XKB_MOD_NAME_CTRL then 1 else 0
  , xkb_compose_state_feed := fun c keysym => (c + keysym, ComposeFeedResult.accepted)
  , xkb_compose_state_get_status := fun _ => ComposeStatus.nothing
  , xkb_compose_state_get_utf8_size := fun _ => 0
  , xkb_compose_state_get_utf8_fill := fun _ buflen => List.replicate buflen 0
  , xkb_keymap_new_from_string := fun _ => some 1
  , xkb_keymap_new_from_names := fun _ => some 2
  , xkb_state_new := fun km => km * 10
  , xkbcommon_available := true
  , xkb_context_new_ok := true
  , xkb_compose_table_new_from_locale := fun _ => true
  , xkb_compose_state_new := fun _ => some 0 }

/-- `baseEngine` with keymap compilation from bytes failing (null keymap). -/
def badKeymapEngine : XkbEngine Nat Nat Nat :=
  { baseEngine with xkb_keymap_new_from_string := fun _ => none }

/-- `baseEngine` whose compose feed never accepts the keysym. -/
def ignoredFeedEngine : XkbEngine Nat Nat Nat :=
  { baseEngine with xkb_compose_state_feed := fun c _ => (c, ComposeFeedResult.ignored) }

/-- A freshly constructed state with no compose session (all handles null). -/
def freshState : KbState Nat Nat Nat :=
  { xkb_keymap := none, xkb_state := none, xkb_compose_table := false
  , xkb_compose_state := none, mods_state := ModifiersState.new, locked := false }

/-- A not-ready state that does own a compose session. -/
def composeOnlyState : KbState Nat Nat Nat :=
  { freshState with xkb_compose_table := true, xkb_compose_state := some 0 }

/-- A ready state (keymap loaded) without a compose session. -/
def readyNoComposeState : KbState Nat Nat Nat :=
  { freshState with xkb_keymap := some 1, xkb_state := some 0 }

/-- A ready state with a compose session. -/
def readyComposeState : KbState Nat Nat Nat :=
  { composeOnlyState with xkb_keymap := some 1, xkb_state := some 0 }

/-- A locked state, as produced by the RMLVO registration path. -/
def lockedState : KbState Nat Nat Nat :=
  { freshState with locked := true }

/-- An RMLVO whose `options` field holds an embedded NUL byte. -/
def rmlvoNulOptions : RMLVO :=
  { rules := none, model := none, layout := none, variant := none
  , options := some [97, 0, 98] }

/-- An RMLVO with every field absent (engine defaults). -/
def rmlvoAllNone : RMLVO :=
  { rules := none, model := none, layout := none, variant := none, options := none }

/-! Theorems settling the claims. -/

/-- Claim C3: for all keycodes, while no keymap has been loaded (the
interpretation state is null), `get_one_sym_raw` returns 0 and `get_utf8_raw`
returns none, and neither performs any engine query (the call trace is
empty). -/
theorem C3_not_ready_resolvers {σ γ κ : Type} (E : XkbEngine σ γ κ)
    (st : KbState σ γ κ) (keycode : Nat) (h : st.xkb_state = none) :
    st.get_one_sym_raw E keycode = (0, []) ∧
    st.get_utf8_raw E keycode = (none, []) := by
  constructor <;> simp [KbState.get_one_sym_raw, KbState.get_utf8_raw, h]

/-- Witness for C3 at a concrete fresh state and engine. -/
theorem C3_not_ready_resolvers_witness :
    freshState.get_one_sym_raw baseEngine 5 = (0, []) ∧
    freshState.get_utf8_raw baseEngine 5 = (none, []) :=
  C3_not_ready_resolvers baseEngine freshState 5 rfl

/-- Claim C9: while the state is not ready, `compose_feed`, `compose_status`
and `compose_get_utf8` all report disabled (none, with the state unchanged and
no engine call), even when a compose session exists. -/
theorem C9_compose_disabled_before_ready {σ γ κ : Type} (E : XkbEngine σ γ κ)
    (st : KbState σ γ κ) (keysym : Nat) (h : st.xkb_state = none) :
    st.compose_feed E keysym = (st, none, []) ∧
    st.compose_status E = (none, []) ∧
    st.compose_get_utf8 E = (none, []) := by
  refine ⟨?_, ?_, ?_⟩ <;>
    simp [KbState.compose_feed, KbState.compose_status, KbState.compose_get_utf8, h]

/-- Witness for C9 at a not-ready state that owns a compose session. -/
theorem C9_compose_disabled_before_ready_witness :
    composeOnlyState.compose_feed baseEngine 7 = (composeOnlyState, none, []) ∧
    composeOnlyState.compose_status baseEngine = (none, []) ∧
    composeOnlyState.compose_get_utf8 baseEngine = (none, []) :=
  C9_compose_disabled_before_ready baseEngine composeOnlyState 7 rfl

/-- Claim C2: on a ready state, with `N` the terminator-inclusive byte count
reported by the two-phase query (the engine's null-buffer return plus one, as
§4.3 words it: "the required byte count (including a terminator)"): when
`N ≤ 1` the result is none and no fill call happens; otherwise the fill call
receives a buffer of exactly `N` bytes and the returned text is the fill
result with the final terminator byte stripped. -/
theorem C2_utf8_two_phase {σ γ κ : Type} (E : XkbEngine σ γ κ)
    (st : KbState σ γ κ) (s : σ) (keycode : Nat) (h : st.xkb_state = some s) :
    ((E.xkb_state_key_get_utf8_size s (keycode + 8) + 1 : Int) ≤ 1 →
      st.get_utf8_raw E keycode = (none, [XkbCall.utf8SizeQuery (keycode + 8)])) ∧
    (1 < (E.xkb_state_key_get_utf8_size s (keycode + 8) + 1 : Int) →
      st.get_utf8_raw E keycode =
        (some (E.xkb_state_key_get_utf8_fill s (keycode + 8)
            (E.xkb_state_key_get_utf8_size s (keycode + 8) + 1).toNat).dropLast,
         [XkbCall.utf8SizeQuery (keycode + 8),
          XkbCall.utf8FillQuery (keycode + 8)
            (E.xkb_state_key_get_utf8_size s (keycode + 8) + 1).toNat])) := by
  constructor
  · intro hle
    simp only [KbState.get_utf8_raw, h]
    simp [hle]
  · intro hlt
    have hnle : ¬ (E.xkb_state_key_get_utf8_size s (keycode + 8) + 1 : Int) ≤ 1 :=
      not_le.mpr hlt
    simp only [KbState.get_utf8_raw, h]
    simp [hnle]

/-- Witness for C2: `baseEngine` reports 3 on the null-buffer call, so the
terminator-inclusive size is 4; the fill call gets a 4-byte buffer and the
result is its content minus the final byte. -/
theorem C2_utf8_two_phase_witness :
    readyNoComposeState.get_utf8_raw baseEngine 1 =
      (some [97, 98, 99], [XkbCall.utf8SizeQuery 9, XkbCall.utf8FillQuery 9 4]) := by
  have h := (C2_utf8_two_phase baseEngine readyNoComposeState 0 1 rfl).2 (by decide)
  exact h.trans (by rfl)

/-- Claim C4: on a ready state, a modifier update whose changed-components
bitset (as returned by `xkb_state_update_mask`) lacks the effective-modifiers
bit leaves the six-boolean snapshot unchanged; one containing the bit
recomputes the whole snapshot from the updated engine state, with one named
effective-activation query per modifier. -/
theorem C4_update_modifiers {σ γ κ : Type} (E : XkbEngine σ γ κ)
    (st : KbState σ γ κ) (s : σ) (d l lk g : Nat) (h : st.xkb_state = some s) :
    ((E.xkb_state_update_mask s d l lk 0 0 g).2 &&& XKB_STATE_MODS_EFFECTIVE ≠
        XKB_STATE_MODS_EFFECTIVE →
      (st.update_modifiers E d l lk g).1.mods_state = st.mods_state ∧
      (st.update_modifiers E d l lk g).2 = [XkbCall.updateMask d l lk g]) ∧
    ((E.xkb_state_update_mask s d l lk 0 0 g).2 &&& XKB_STATE_MODS_EFFECTIVE =
        XKB_STATE_MODS_EFFECTIVE →
      (st.update_modifiers E d l lk g).1.mods_state =
        ModifiersState.update_with E (E.xkb_state_update_mask s d l lk 0 0 g).1 ∧
      (st.update_modifiers E d l lk g).2 =
        XkbCall.updateMask d l lk g :: modNameQueries) := by
  constructor
  · intro hmask
    simp only [KbState.update_modifiers, h]
    simp [hmask]
  · intro hmask
    simp only [KbState.update_modifiers, h]
    simp [hmask]

/-- Witness for C4: `baseEngine` always reports the effective bit, so the
snapshot is recomputed by the six named queries. -/
theorem C4_update_modifiers_witness :
    (readyNoComposeState.update_modifiers baseEngine 1 2 3 4).1.mods_state =
      ModifiersState.update_with baseEngine
        (baseEngine.xkb_state_update_mask 0 1 2 3 0 0 4).1 ∧
    (readyNoComposeState.update_modifiers baseEngine 1 2 3 4).2 =
      XkbCall.updateMask 1 2 3 4 :: modNameQueries :=
  (C4_update_modifiers baseEngine readyNoComposeState 0 1 2 3 4 rfl).2 (by decide)

/-- Claim C8: a key-release event never feeds the compose session and never
emits text: the handler receives the serial/time, the current modifier
snapshot, the raw keycode, the resolved symbol, the release key-state and no
UTF-8; the state is unchanged and the trace (the symbol resolution only)
holds no compose-feed call. -/
theorem C8_release_no_feed_no_text {σ γ κ : Type} (E : XkbEngine σ γ κ)
    (st : KbState σ γ κ) (serial time key : Nat) :
    key_event E st serial time key KeyState.released =
      (st,
       { serial := serial, time := time, mods := st.mods_state, rawkey := key
       , keysym := (st.get_one_sym_raw E key).1, key_state := KeyState.released
       , utf8 := none },
       (st.get_one_sym_raw E key).2) ∧
    noComposeFeed (key_event E st serial time key KeyState.released).2.2 = true := by
  have h1 : key_event E st serial time key KeyState.released =
      (st,
       { serial := serial, time := time, mods := st.mods_state, rawkey := key
       , keysym := (st.get_one_sym_raw E key).1, key_state := KeyState.released
       , utf8 := none },
       (st.get_one_sym_raw E key).2) := by
    simp [key_event]
  refine ⟨h1, ?_⟩
  rw [h1]
  cases hx : st.xkb_state <;>
    simp [KbState.get_one_sym_raw, hx, noComposeFeed, isComposeFeedCall]

/-- A modifier update on a not-ready state leaves the state unchanged. -/
lemma update_modifiers_not_ready {σ γ κ : Type} (E : XkbEngine σ γ κ)
    (st : KbState σ γ κ) (d l lk g : Nat) (h : st.xkb_state = none) :
    st.update_modifiers E d l lk g = (st, []) := by
  simp [KbState.update_modifiers, h]

/-- Folding any list of modifier updates over a not-ready state is the
identity. -/
lemma applyUpdates_not_ready {σ γ κ : Type} (E : XkbEngine σ γ κ)
    (updates : List (Nat × Nat × Nat × Nat)) :
    ∀ st : KbState σ γ κ, st.xkb_state = none → applyUpdates E st updates = st := by
  induction updates with
  | nil => intro st _; rfl
  | cons u us ih =>
      intro st h
      have h1 : (st.update_modifiers E u.1 u.2.1 u.2.2.1 u.2.2.2).1 = st := by
        rw [update_modifiers_not_ready E st _ _ _ _ h]
      simp only [applyUpdates, List.foldl_cons]
      rw [h1]
      exact ih st h

/-- `init_compose` never touches the modifier snapshot or the interpretation
state. -/
lemma init_compose_preserves {σ γ κ : Type} (E : XkbEngine σ γ κ)
    (st : KbState σ γ κ) (locale : List Nat) :
    (KbState.init_compose E st locale).mods_state = st.mods_state ∧
    (KbState.init_compose E st locale).xkb_state = st.xkb_state := by
  unfold KbState.init_compose
  split
  · exact ⟨rfl, rfl⟩
  · split <;> exact ⟨rfl, rfl⟩

/-- Claim C10: a newly constructed state carries the all-false modifier
snapshot and is not ready; every sequence of modifier updates delivered before
a keymap load leaves it unchanged (so the snapshot stays all-false); and
installing a keymap (`post_init`) recomputes the snapshot from the freshly
derived interpretation state. -/
theorem C10_mods_false_before_keymap {σ γ κ : Type} (E : XkbEngine σ γ κ)
    (locale : List Nat) (st0 : KbState σ γ κ)
    (hnew : KbState.new E locale = Except.ok st0) :
    st0.mods_state = ModifiersState.new ∧
    ModifiersState.new =
      { ctrl := false, alt := false, shift := false
      , caps_lock := false, logo := false, num_lock := false } ∧
    st0.xkb_state = none ∧
    (∀ updates, applyUpdates E st0 updates = st0) ∧
    (∀ km, (st0.post_init E km).mods_state =
      ModifiersState.update_with E (E.xkb_state_new km)) := by
  unfold KbState.new at hnew
  cases hav2 : E.xkbcommon_available with
  | false =>
      rw [hav2] at hnew
      simp at hnew
  | true =>
  cases hctx2 : E.xkb_context_new_ok with
  | false =>
      rw [hav2, hctx2] at hnew
      simp at hnew
  | true =>
      rw [hav2, hctx2] at hnew
      simp at hnew
      have hpres := init_compose_preserves E
        { xkb_keymap := none, xkb_state := none, xkb_compose_table := false
        , xkb_compose_state := none, mods_state := ModifiersState.new
        , locked := false } locale
      have hmods : st0.mods_state = ModifiersState.new := by
        rw [← hnew]; exact hpres.1
      have hxkb : st0.xkb_state = none := by
        rw [← hnew]; exact hpres.2
      refine ⟨hmods, rfl, hxkb, ?_, ?_⟩
      · intro updates
        exact applyUpdates_not_ready E updates st0 hxkb
      · intro km
        rfl

/-- Witness for C10: `baseEngine` constructs `composeOnlyState`; two
modifier updates before any keymap leave it untouched, and `post_init`
recomputes the snapshot from the new interpretation state. -/
theorem C10_mods_false_before_keymap_witness :
    composeOnlyState.mods_state = ModifiersState.new ∧
    applyUpdates baseEngine composeOnlyState [(1, 2, 3, 4), (5, 6, 7, 8)] =
      composeOnlyState ∧
    (composeOnlyState.post_init baseEngine 2).mods_state =
      ModifiersState.update_with baseEngine (baseEngine.xkb_state_new 2) := by
  have h := C10_mods_false_before_keymap baseEngine [67] composeOnlyState rfl
  exact ⟨h.1, h.2.2.2.1 _, h.2.2.2.2 2⟩

/-- Claim C7: a locked state (as the RMLVO registration path produces) ignores
every compositor keymap notification, returning the state unchanged; and any
state successfully registered through `register_kbd_from_rmlvo` is locked. -/
theorem C7_locked_ignores_keymap {σ γ κ : Type} (E Er : XkbEngine σ γ κ)
    (st : KbState σ γ κ) (format : KeymapFormat) (bytes locale : List Nat)
    (rmlvo : RMLVO) (st2 : KbState σ γ κ) :
    (st.locked = true → keymap_event E st format bytes = Except.ok st) ∧
    (register_kbd_from_rmlvo Er locale rmlvo = Except.ok st2 → st2.locked = true) := by
  constructor
  · intro h
    simp [keymap_event, h]
  · intro hreg
    unfold register_kbd_from_rmlvo at hreg
    repeat' split at hreg
    all_goals (cases hreg <;> rfl)

/-- The state the RMLVO registration path produces for `baseEngine`. -/
def rmlvoRegisteredState : KbState Nat Nat Nat :=
  { xkb_keymap := some 2, xkb_state := some 20, xkb_compose_table := true
  , xkb_compose_state := some 0
  , mods_state := { ctrl := true, alt := false, shift := false
                  , caps_lock := false, logo := false, num_lock := false }
  , locked := true }

/-- Witness for C7 at a concrete locked state and a concrete registration. -/
theorem C7_locked_ignores_keymap_witness :
    keymap_event baseEngine lockedState KeymapFormat.xkbV1 [1] = Except.ok lockedState ∧
    rmlvoRegisteredState.locked = true := by
  have h := C7_locked_ignores_keymap baseEngine baseEngine lockedState
    KeymapFormat.xkbV1 [1] [67] rmlvoAllNone rmlvoRegisteredState
  exact ⟨h.1 rfl, h.2 (by rfl)⟩

/-- Counterexample for C5: with malformed keymap bytes (the engine compiles
them to null), `init_with_fd` does not signal any recoverable
`KeymapError::Malformed` condition — the code's error enum has no such
constructor — it runs `panic!("Received invalid keymap from compositor.")`,
modelled as the panic outcome, i.e. process termination. -/
theorem C5_counterexample :
    isPanicOutcome (freshState.init_with_fd badKeymapEngine [0]) = true ∧
    freshState.init_with_fd badKeymapEngine [0] =
      Except.error invalidKeymapPanicMsg := by
  constructor <;> rfl

/-- Claim C5 (amended): malformed keymap bytes during the keymap notification
make `init_with_fd` panic with "Received invalid keymap from compositor."
(process termination) instead of returning an error; on an unlocked state the
whole keymap event ends in that panic (any previous interpretation state
having already been released by `de_init`). -/
theorem C5_malformed_keymap_panics {σ γ κ : Type} (E : XkbEngine σ γ κ)
    (st : KbState σ γ κ) (bytes : List Nat)
    (hfail : E.xkb_keymap_new_from_string bytes = none) :
    st.init_with_fd E bytes = Except.error invalidKeymapPanicMsg ∧
    (st.locked = false →
      keymap_event E st KeymapFormat.xkbV1 bytes =
        Except.error invalidKeymapPanicMsg) := by
  have h1 : st.init_with_fd E bytes = Except.error invalidKeymapPanicMsg := by
    simp [KbState.init_with_fd, hfail]
  refine ⟨h1, ?_⟩
  intro hlock
  simp only [keymap_event, hlock, if_false, Bool.false_eq_true]
  split <;> simp [KbState.init_with_fd, hfail]

/-- Witness for C5's amended statement at a concrete engine and state. -/
theorem C5_malformed_keymap_panics_witness :
    freshState.init_with_fd badKeymapEngine [9] =
      Except.error invalidKeymapPanicMsg ∧
    keymap_event badKeymapEngine freshState KeymapFormat.xkbV1 [9] =
      Except.error invalidKeymapPanicMsg := by
  have h := C5_malformed_keymap_panics badKeymapEngine freshState [9] rfl
  exact ⟨h.1, h.2 rfl⟩

/-- `to_cstring` fails with `BadNames` exactly on a field with a NUL byte. -/
lemma to_cstring_of_hasNul {s : Option (List Nat)} (h : fieldHasNul s = true) :
    to_cstring s = Except.error MappedKeyboardError.BadNames := by
  cases s with
  | none => simp [fieldHasNul] at h
  | some bytes =>
      have h' : decide (0 ∈ bytes) = true := h
      have hm : 0 ∈ bytes := of_decide_eq_true h'
      simp [to_cstring, hm]

/-- `to_cstring` is the identity on a field without a NUL byte. -/
lemma to_cstring_of_noNul {s : Option (List Nat)} (h : fieldHasNul s = false) :
    to_cstring s = Except.ok s := by
  cases s with
  | none => rfl
  | some bytes =>
      have h' : decide (0 ∈ bytes) = false := h
      have hm : ¬ 0 ∈ bytes := of_decide_eq_false h'
      simp [to_cstring, hm]

/-- Counterexample for C6: on an RMLVO whose `options` field holds an embedded
NUL, registration returns `MappedKeyboardError::BadNames` — in the spec's §7
taxonomy the `KeymapError::BadNames` condition, not
`ConfigError::InvalidParameter` (the code has no such distinct condition). -/
theorem C6_counterexample :
    register_kbd_from_rmlvo baseEngine [67] rmlvoNulOptions =
      Except.error MappedKeyboardError.BadNames ∧
    specConditionOf MappedKeyboardError.BadNames ≠
      SpecErrorCondition.configInvalidParameter := by
  constructor
  · rfl
  · decide

/-- Claim C6 (amended): whenever a provided RMLVO field string holds an
embedded NUL byte (and the engine itself is available, so construction gets as
far as the string conversion), the conversion fails and registration returns
`MappedKeyboardError::BadNames` — the same error as an unloadable RMLVO, not a
distinct invalid-parameter condition. -/
theorem C6_nul_returns_badnames {σ γ κ : Type} (E : XkbEngine σ γ κ)
    (locale : List Nat) (rmlvo : RMLVO)
    (hav : E.xkbcommon_available = true) (hctx : E.xkb_context_new_ok = true)
    (hnul : rmlvoHasNul rmlvo = true) :
    register_kbd_from_rmlvo E locale rmlvo =
      Except.error MappedKeyboardError.BadNames := by
  unfold register_kbd_from_rmlvo
  have hnew : KbState.new E locale = Except.ok (KbState.init_compose E
      { xkb_keymap := none, xkb_state := none, xkb_compose_table := false
      , xkb_compose_state := none, mods_state := ModifiersState.new
      , locked := false } locale) := by
    simp [KbState.new, hav, hctx]
  rw [hnew]
  by_cases h1 : fieldHasNul rmlvo.rules = true
  · rw [to_cstring_of_hasNul h1]
  · have h1f : fieldHasNul rmlvo.rules = false := by simpa using h1
    rw [to_cstring_of_noNul h1f]
    by_cases h2 : fieldHasNul rmlvo.model = true
    · rw [to_cstring_of_hasNul h2]
    · have h2f : fieldHasNul rmlvo.model = false := by simpa using h2
      rw [to_cstring_of_noNul h2f]
      by_cases h3 : fieldHasNul rmlvo.layout = true
      · rw [to_cstring_of_hasNul h3]
      · have h3f : fieldHasNul rmlvo.layout = false := by simpa using h3
        rw [to_cstring_of_noNul h3f]
        by_cases h4 : fieldHasNul rmlvo.variant = true
        · rw [to_cstring_of_hasNul h4]
        · have h4f : fieldHasNul rmlvo.variant = false := by simpa using h4
          rw [to_cstring_of_noNul h4f]
          by_cases h5 : fieldHasNul rmlvo.options = true
          · rw [to_cstring_of_hasNul h5]
          · have h5f : fieldHasNul rmlvo.options = false := by simpa using h5
            simp [rmlvoHasNul, h1f, h2f, h3f, h4f, h5f] at hnul

/-- Witness for C6's amended statement at a concrete NUL-bearing RMLVO. -/
theorem C6_nul_returns_badnames_witness :
    register_kbd_from_rmlvo baseEngine [67] rmlvoNulOptions =
      Except.error MappedKeyboardError.BadNames :=
  C6_nul_returns_badnames baseEngine [67] rmlvoNulOptions rfl rfl (by decide)

/-- Claim C1 (code bug exhibit): on a key press where the compose feed does
not accept the symbol, the code emits NO text (`utf8 = none`) although direct
resolution yields text. First pair: no compose session exists (the feed
returns none), emitted text is none while `get_utf8_raw` returns "abc".
Second pair: a session exists but the feed reports `IGNORED`, emitted text is
again none while direct resolution returns "abc". The claim (spec §4.5/§7:
bypass compose and resolve directly; text input remains functional) fails on
both. -/
theorem C1_press_unaccepted_feed_emits_none :
    (key_event baseEngine readyNoComposeState 1 2 3 KeyState.pressed).2.1.utf8 =
      none ∧
    (readyNoComposeState.get_utf8_raw baseEngine 3).1 = some [97, 98, 99] ∧
    (key_event ignoredFeedEngine readyComposeState 1 2 3 KeyState.pressed).2.1.utf8 =
      none ∧
    (readyComposeState.get_utf8_raw ignoredFeedEngine 3).1 = some [97, 98, 99] := by
  refine ⟨rfl, rfl, rfl, rfl⟩

end WaylandKbd
